import Mathlib

/-!
Verification of the pan-tilt vision tracker (`auto-turret-tracker.py`).

The tracker's loop body (`gen_frames`) is embedded as a pure function over
exact rationals: per-iteration detector outputs are given as lists of
already-scaled integer boxes with rational confidences, wall-clock time is a
rational supplied with each frame, and the transcendental `math.sin` is kept
as an explicit function argument `sinpi` (standing for `x ↦ sin (π·x)`), so
every theorem below holds for the true sine in particular.  The per-axis
configuration constant `TILT_DIR` is likewise threaded as an argument
`tilt_dir` (the repository sets it to `-1`).
-/

namespace AutoTurret

/-- Mechanical pan limits: `PAN_MIN, PAN_MAX = 20, 160`. -/
def PAN_MIN : ℚ := 20
def PAN_MAX : ℚ := 160

/-- Mechanical tilt limits: `TILT_MIN, TILT_MAX = 50, 130`. -/
def TILT_MIN : ℚ := 50
def TILT_MAX : ℚ := 130

/-- Center pose: `PAN_CENTER, TILT_CENTER = 90, 90`. -/
def PAN_CENTER : ℚ := 90
def TILT_CENTER : ℚ := 90

/-- Repository value of the tilt direction sign: `TILT_DIR = -1`. -/
def TILT_DIR : ℚ := -1

/-- Scan parameters: `SCAN_RANGE_PAN, SCAN_RANGE_TILT = 40, 30`;
`SCAN_STEP = 1`; `SCAN_WAVES = 4`. -/
def SCAN_RANGE_PAN : ℚ := 40
def SCAN_RANGE_TILT : ℚ := 30
def SCAN_STEP : ℚ := 1
def SCAN_WAVES : ℚ := 4

/-- Tracking parameters: `CENTER_TOL_X, CENTER_TOL_Y = 8, 8`;
`GAIN_PAN, GAIN_TILT = 0.05, 0.05`; `LOST_TIMEOUT = 2.0`. -/
def CENTER_TOL_X : ℤ := 8
def CENTER_TOL_Y : ℤ := 8
def GAIN_PAN : ℚ := 5 / 100
def GAIN_TILT : ℚ := 5 / 100
def LOST_TIMEOUT : ℚ := 2

/-- Camera resolution `CAM_W, CAM_H = 300, 225` and image center
`CX, CY = CAM_W // 2, CAM_H // 2`. -/
def CAM_W : ℤ := 300
def CAM_H : ℤ := 225
def CX : ℤ := CAM_W / 2
def CY : ℤ := CAM_H / 2

/-- Face detector thresholds: `FACE_CONF = 0.5`, `MIN_FACE_PIX = 225`,
`FACE_HOLD_SEC = 0.1`. -/
def FACE_CONF : ℚ := 5 / 10
def MIN_FACE_PIX : ℤ := 225
def FACE_HOLD_SEC : ℚ := 1 / 10

/-- Person detector thresholds: `PERSON_CLASS = 15`, `PERSON_CONF = 0.5`,
`MIN_BODY_FRAC = 0.02`. -/
def PERSON_CLASS : ℤ := 15
def PERSON_CONF : ℚ := 5 / 10
def MIN_BODY_FRAC : ℚ := 2 / 100

/-- Servo channels `PAN_CH, TILT_CH = 0, 1`. -/
def PAN_CH : ℤ := 0
def TILT_CH : ℤ := 1

/-- `set_angle`: clamp the angle to `[0, 180]` and convert to a pulse width
`500.0 + (ang / 180.0) * 1900.0` microseconds. -/
def set_angle_pulse (ang : ℚ) : ℚ :=
  let a := max 0 (min 180 ang)
  500 + (a / 180) * 1900

/-- `set_angle`: the duty-cycle integer `int(pulse_us * 65535.0 / 20000.0)`
(Python `int` truncates toward zero; the pulse is nonnegative, so this is
the floor). -/
def set_angle_duty (ang : ℚ) : ℤ :=
  Int.floor (set_angle_pulse ang * 65535 / 20000)

/-- An axis-aligned pixel box `(x1, y1, x2, y2)`. -/
abbrev Box := ℤ × ℤ × ℤ × ℤ

/-- One face-detector output, after scaling to pixel coordinates and
`astype(int)`: a confidence and a box. -/
structure FaceDet where
  conf : ℚ
  x1 : ℤ
  y1 : ℤ
  x2 : ℤ
  y2 : ℤ
  deriving Repr, DecidableEq

/-- One body-detector output: a confidence, a class id, and a box. -/
structure BodyDet where
  conf : ℚ
  cls : ℤ
  x1 : ℤ
  y1 : ℤ
  x2 : ℤ
  y2 : ℤ
  deriving Repr, DecidableEq

def FaceDet.box (d : FaceDet) : Box := (d.x1, d.y1, d.x2, d.y2)
def FaceDet.area (d : FaceDet) : ℤ := (d.x2 - d.x1) * (d.y2 - d.y1)
def BodyDet.box (d : BodyDet) : Box := (d.x1, d.y1, d.x2, d.y2)
def BodyDet.area (d : BodyDet) : ℤ := (d.x2 - d.x1) * (d.y2 - d.y1)

/-- Body of the face-selection loop: skip detections with
`conf < FACE_CONF` or area `< MIN_FACE_PIX`; keep the strictly
highest-confidence survivor. -/
def stepFace (acc : Option Box × ℚ) (d : FaceDet) : Option Box × ℚ :=
  if d.conf < FACE_CONF then acc
  else if d.area < MIN_FACE_PIX then acc
  else if d.conf > acc.2 then (some d.box, d.conf)
  else acc

/-- The face-selection loop over all face-detector outputs, starting from
`best_face, best_fconf = None, 0.0`. -/
def bestFaceOf (dets : List FaceDet) : Option Box × ℚ :=
  dets.foldl stepFace (none, 0)

/-- Body of the body-selection loop: skip detections with
`conf < PERSON_CONF` or `cls != PERSON_CLASS` or area below
`MIN_BODY_FRAC * CAM_W * CAM_H`; keep the strictly highest-confidence
survivor. -/
def stepBody (acc : Option Box × ℚ) (d : BodyDet) : Option Box × ℚ :=
  if d.conf < PERSON_CONF ∨ d.cls ≠ PERSON_CLASS then acc
  else if (d.area : ℚ) < MIN_BODY_FRAC * (CAM_W : ℚ) * (CAM_H : ℚ) then acc
  else if d.conf > acc.2 then (some d.box, d.conf)
  else acc

/-- The body-selection loop, run from an initial `(best_box, best_conf)`. -/
def bestBodyFrom (acc : Option Box × ℚ) (dets : List BodyDet) :
    Option Box × ℚ :=
  dets.foldl stepBody acc

/-- All loop state mutated by `gen_frames` (the module-level globals). -/
structure TurretState where
  pan : ℚ
  tilt : ℚ
  scan_dir : ℤ
  last_seen : ℚ
  last_face_time : ℚ
  last_face_box : Option Box
  last_conf : ℚ
  last_fx : ℤ
  last_fy : ℤ
  tracking_mode : String
  deriving Repr, DecidableEq

/-- The initial runtime state of the module. -/
def initState : TurretState where
  pan := PAN_CENTER
  tilt := TILT_CENTER
  scan_dir := 1
  last_seen := 0
  last_face_time := 0
  last_face_box := none
  last_conf := 0
  last_fx := CX
  last_fy := CY
  tracking_mode := "none"

/-- One successfully captured frame: the wall-clock time of the iteration
and the two detectors' outputs on it. -/
structure Frame where
  now : ℚ
  faceDets : List FaceDet
  bodyDets : List BodyDet

/-- A `set_angle(ch, ang)` call recorded by the model. -/
abbrev Cmd := ℤ × ℚ

/-- `max(lo, min(hi, x))`, the clamping idiom used throughout the source. -/
def clampQ (lo hi x : ℚ) : ℚ := max lo (min hi x)

/-- Center of a box: `fx, fy = (x1 + x2) // 2, (y1 + y2) // 2` (Python `//`
is floor division). -/
def boxCenterX (b : Box) : ℤ := Int.fdiv (b.1 + b.2.2.1) 2
def boxCenterY (b : Box) : ℤ := Int.fdiv (b.2.1 + b.2.2.2) 2

/-- The pan servo-adjust block: if `|err_x| > CENTER_TOL_X`, set
`pan ← clamp(pan - err_x * GAIN_PAN)` and call `set_angle(PAN_CH, pan)`;
otherwise leave pan alone. -/
def panUpdate (pan : ℚ) (err_x : ℤ) : ℚ × List Cmd :=
  if |err_x| > CENTER_TOL_X then
    let p := clampQ PAN_MIN PAN_MAX (pan - (err_x : ℚ) * GAIN_PAN)
    (p, [(PAN_CH, p)])
  else (pan, [])

/-- The tilt servo-adjust block: if `|err_y| > CENTER_TOL_Y`, set
`tilt ← clamp(tilt + tilt_dir * err_y * GAIN_TILT)` and call
`set_angle(TILT_CH, tilt)`; otherwise leave tilt alone. -/
def tiltUpdate (tilt_dir tilt : ℚ) (err_y : ℤ) : ℚ × List Cmd :=
  if |err_y| > CENTER_TOL_Y then
    let t := clampQ TILT_MIN TILT_MAX (tilt + tilt_dir * (err_y : ℚ) * GAIN_TILT)
    (t, [(TILT_CH, t)])
  else (tilt, [])

/-- The scan-pattern update: `pan += SCAN_STEP * scan_dir`; if pan exits
`[PAN_MIN, PAN_MAX]`, flip `scan_dir` and step again; then set tilt to
`TILT_CENTER + SCAN_RANGE_TILT * sin(π * SCAN_WAVES * t_norm)` with
`t_norm = (pan - PAN_CENTER) / SCAN_RANGE_PAN`, clamped to tilt bounds.
`sinpi x` stands for `sin (π · x)`. -/
def scanUpdate (sinpi : ℚ → ℚ) (pan tilt : ℚ) (dir : ℤ) : ℚ × ℚ × ℤ :=
  let pan1 := pan + SCAN_STEP * (dir : ℚ)
  let pd : ℚ × ℤ :=
    if pan1 > PAN_MAX ∨ pan1 < PAN_MIN then
      (pan1 + SCAN_STEP * ((-dir : ℤ) : ℚ), -dir)
    else (pan1, dir)
  let t_norm := (pd.1 - PAN_CENTER) / SCAN_RANGE_PAN
  let tilt1 := TILT_CENTER + SCAN_RANGE_TILT * sinpi (SCAN_WAVES * t_norm)
  (pd.1, clampQ TILT_MIN TILT_MAX tilt1, pd.2)

/-- Result of one loop iteration on a captured frame: the new state, the
status text drawn on the frame, and the `set_angle` calls issued. -/
structure IterResult where
  state : TurretState
  status : String
  cmds : List Cmd
  deriving Repr

/-- The `if detected:` arm of the loop body: draw the box, run the two
servo-adjust blocks, and record `last_seen = now`, `last_conf = best_conf`,
`last_fx, last_fy = fx, fy`.  `lft`/`lfb` are the already-updated remembered
face time and box, `mode` is the already-computed tracking mode. -/
def trackBranch (tilt_dir now : ℚ) (s : TurretState) (lft : ℚ)
    (lfb : Option Box) (mode : String) (b : Box) (conf : ℚ) : IterResult :=
  let fx := boxCenterX b
  let fy := boxCenterY b
  let panCmds := panUpdate s.pan (fx - CX)
  let tiltCmds := tiltUpdate tilt_dir s.tilt (fy - CY)
  { state :=
      { pan := panCmds.1
        tilt := tiltCmds.1
        scan_dir := s.scan_dir
        last_seen := now
        last_face_time := lft
        last_face_box := lfb
        last_conf := conf
        last_fx := fx
        last_fy := fy
        tracking_mode := mode }
    status := "Tracking"
    cmds := panCmds.2 ++ tiltCmds.2 }

/-- The `else:` arm of the loop body (no target this frame): take a scan
step when `now - last_seen > LOST_TIMEOUT`, and compute the status text
(`"Target lost (hold)"` when `now - last_seen < LOST_TIMEOUT`, otherwise
`"Scanning"`). -/
def noTargetBranch (sinpi : ℚ → ℚ) (now : ℚ) (s : TurretState) (lft : ℚ)
    (lfb : Option Box) (mode : String) : IterResult :=
  let status :=
    if now - s.last_seen < LOST_TIMEOUT then "Target lost (hold)"
    else "Scanning"
  if now - s.last_seen > LOST_TIMEOUT then
    let ptd := scanUpdate sinpi s.pan s.tilt s.scan_dir
    { state :=
        { s with
          pan := ptd.1
          tilt := ptd.2.1
          scan_dir := ptd.2.2
          last_face_time := lft
          last_face_box := lfb
          tracking_mode := mode }
      status := status
      cmds := [(PAN_CH, ptd.1), (TILT_CH, ptd.2.1)] }
  else
    { state :=
        { s with
          last_face_time := lft
          last_face_box := lfb
          tracking_mode := mode }
      status := status
      cmds := [] }

/-- Dispatch on `detected = best_box is not None`. -/
def dispatchTarget (sinpi : ℚ → ℚ) (tilt_dir now : ℚ) (s : TurretState)
    (lft : ℚ) (lfb : Option Box) (mode : String) :
    Option Box × ℚ → IterResult
  | (some b, conf) => trackBranch tilt_dir now s lft lfb mode b conf
  | (none, _) => noTargetBranch sinpi now s lft lfb mode

/-- One iteration of `gen_frames` on a successfully captured frame,
translated statement by statement from the source. -/
def runFrame (sinpi : ℚ → ℚ) (tilt_dir : ℚ) (s : TurretState) (fr : Frame) :
    IterResult :=
  -- 1) FACE detection
  let bf := bestFaceOf fr.faceDets
  let best_face := bf.1
  let best_fconf := bf.2
  let last_face_box := if best_face.isSome then best_face else s.last_face_box
  let last_face_time := if best_face.isSome then fr.now else s.last_face_time
  -- Use a recently seen face if available
  let use_face : Bool :=
    decide (fr.now - last_face_time < FACE_HOLD_SEC) && last_face_box.isSome
  let mode0 := if use_face then "face" else "none"
  let bc0 : Option Box × ℚ :=
    if use_face then (last_face_box, best_fconf) else (none, 0)
  -- 2) BODY detection if no face
  let bc1 := if mode0 = "none" then bestBodyFrom bc0 fr.bodyDets else bc0
  let mode1 :=
    if mode0 = "none" then (if bc1.1.isSome then "body" else mode0) else mode0
  dispatchTarget sinpi tilt_dir fr.now s last_face_time last_face_box mode1 bc1

/-- One pass of the `while True` loop: a `none` input is a
`capture_array` failure, handled by `print`, `sleep(0.5)`, `continue` —
no state is touched and no status or command is produced. -/
def loopStep (sinpi : ℚ → ℚ) (tilt_dir : ℚ) (s : TurretState)
    (inp : Option Frame) : TurretState × Option String × List Cmd :=
  match inp with
  | none => (s, none, [])
  | some fr =>
    let r := runFrame sinpi tilt_dir s fr
    (r.state, some r.status, r.cmds)

/-- Run the loop over a whole sequence of iteration inputs, returning the
final state. -/
def runTrace (sinpi : ℚ → ℚ) (tilt_dir : ℚ) (s : TurretState) :
    List (Option Frame) → TurretState
  | [] => s
  | inp :: rest => runTrace sinpi tilt_dir (loopStep sinpi tilt_dir s inp).1 rest

/-- Run the loop over a sequence of successfully captured frames. -/
def runFrames (sinpi : ℚ → ℚ) (tilt_dir : ℚ) (s : TurretState) :
    List Frame → TurretState
  | [] => s
  | fr :: rest => runFrames sinpi tilt_dir (runFrame sinpi tilt_dir s fr).state rest

/-- The pose invariant: both commanded angles lie within the configured
mechanical bounds. -/
def poseInv (s : TurretState) : Prop :=
  PAN_MIN ≤ s.pan ∧ s.pan ≤ PAN_MAX ∧ TILT_MIN ≤ s.tilt ∧ s.tilt ≤ TILT_MAX

instance (s : TurretState) : Decidable (poseInv s) := by
  unfold poseInv; infer_instance

/-- A body detection passes all three body-stage filters. -/
def bodyQualifies (d : BodyDet) : Prop :=
  d.cls = PERSON_CLASS ∧ PERSON_CONF ≤ d.conf ∧
    MIN_BODY_FRAC * (CAM_W : ℚ) * (CAM_H : ℚ) ≤ (d.area : ℚ)

instance (d : BodyDet) : Decidable (bodyQualifies d) := by
  unfold bodyQualifies; infer_instance


/-! ## Basic bound lemmas -/

theorem clampQ_mem (lo hi x : ℚ) (h : lo ≤ hi) :
    lo ≤ clampQ lo hi x ∧ clampQ lo hi x ≤ hi := by
  unfold clampQ
  exact ⟨le_max_left lo _, max_le h (min_le_left _ _)⟩

theorem panUpdate_mem (pan : ℚ) (e : ℤ)
    (h : PAN_MIN ≤ pan ∧ pan ≤ PAN_MAX) :
    PAN_MIN ≤ (panUpdate pan e).1 ∧ (panUpdate pan e).1 ≤ PAN_MAX := by
  unfold panUpdate
  split
  · simpa using clampQ_mem PAN_MIN PAN_MAX _ (by norm_num [PAN_MIN, PAN_MAX])
  · exact h

theorem tiltUpdate_mem (tilt_dir tilt : ℚ) (e : ℤ)
    (h : TILT_MIN ≤ tilt ∧ tilt ≤ TILT_MAX) :
    TILT_MIN ≤ (tiltUpdate tilt_dir tilt e).1 ∧
      (tiltUpdate tilt_dir tilt e).1 ≤ TILT_MAX := by
  unfold tiltUpdate
  split
  · simpa using clampQ_mem TILT_MIN TILT_MAX _ (by norm_num [TILT_MIN, TILT_MAX])
  · exact h

theorem scanUpdate_pan_mem (sinpi : ℚ → ℚ) (pan tilt : ℚ) (dir : ℤ)
    (h : PAN_MIN ≤ pan ∧ pan ≤ PAN_MAX) :
    PAN_MIN ≤ (scanUpdate sinpi pan tilt dir).1 ∧
      (scanUpdate sinpi pan tilt dir).1 ≤ PAN_MAX := by
  unfold scanUpdate
  dsimp only
  split
  · have heq : pan + SCAN_STEP * (dir : ℚ) + SCAN_STEP * ((-dir : ℤ) : ℚ) = pan := by
      push_cast; ring
    simpa [heq] using h
  · rename_i hcase
    push_neg at hcase
    exact ⟨hcase.2, hcase.1⟩

theorem scanUpdate_tilt_mem (sinpi : ℚ → ℚ) (pan tilt : ℚ) (dir : ℤ) :
    TILT_MIN ≤ (scanUpdate sinpi pan tilt dir).2.1 ∧
      (scanUpdate sinpi pan tilt dir).2.1 ≤ TILT_MAX := by
  unfold scanUpdate
  dsimp only
  exact clampQ_mem TILT_MIN TILT_MAX _ (by norm_num [TILT_MIN, TILT_MAX])

theorem dispatchTarget_poseInv (sinpi : ℚ → ℚ) (tilt_dir now : ℚ)
    (s : TurretState) (lft : ℚ) (lfb : Option Box) (mode : String)
    (bc : Option Box × ℚ) (h : poseInv s) :
    poseInv (dispatchTarget sinpi tilt_dir now s lft lfb mode bc).state := by
  obtain ⟨h1, h2, h3, h4⟩ := h
  rcases bc with ⟨ob, conf⟩
  cases ob with
  | some b =>
    unfold dispatchTarget trackBranch poseInv
    dsimp only
    have hp := panUpdate_mem s.pan (boxCenterX b - CX) ⟨h1, h2⟩
    have ht := tiltUpdate_mem tilt_dir s.tilt (boxCenterY b - CY) ⟨h3, h4⟩
    exact ⟨hp.1, hp.2, ht.1, ht.2⟩
  | none =>
    unfold dispatchTarget noTargetBranch poseInv
    dsimp only
    split
    · dsimp only
      have hp := scanUpdate_pan_mem sinpi s.pan s.tilt s.scan_dir ⟨h1, h2⟩
      have ht := scanUpdate_tilt_mem sinpi s.pan s.tilt s.scan_dir
      exact ⟨hp.1, hp.2, ht.1, ht.2⟩
    · exact ⟨h1, h2, h3, h4⟩

theorem runFrame_poseInv (sinpi : ℚ → ℚ) (tilt_dir : ℚ) (s : TurretState)
    (fr : Frame) (h : poseInv s) : poseInv (runFrame sinpi tilt_dir s fr).state := by
  unfold runFrame
  exact dispatchTarget_poseInv sinpi tilt_dir fr.now s _ _ _ _ h

theorem loopStep_poseInv (sinpi : ℚ → ℚ) (tilt_dir : ℚ) (s : TurretState)
    (inp : Option Frame) (h : poseInv s) :
    poseInv (loopStep sinpi tilt_dir s inp).1 := by
  cases inp with
  | none => exact h
  | some fr => exact runFrame_poseInv sinpi tilt_dir s fr h

/-! ## Claim theorems: bounds and basic safety -/

/-- C1: For every sequence of loop iterations (tracking adjustments and scan
steps alike), the commanded pan angle stays within `[PAN_MIN, PAN_MAX]` and
the commanded tilt angle stays within `[TILT_MIN, TILT_MAX]` at the end of
every iteration, for arbitrary detection inputs, given that the initial pose
lies within those bounds.  Stated for every sine oracle and every tilt
direction, hence in particular for the repository's configuration. -/
theorem pose_bounds_invariant (sinpi : ℚ → ℚ) (tilt_dir : ℚ)
    (s : TurretState) (inputs : List (Option Frame)) (h : poseInv s) :
    poseInv (runTrace sinpi tilt_dir s inputs) := by
  induction inputs generalizing s with
  | nil => exact h
  | cons i rest ih => exact ih _ (loopStep_poseInv sinpi tilt_dir s i h)

/-- Witness for C1: the initial pose `(PAN_CENTER, TILT_CENTER)` satisfies the
bounds, and a concrete three-iteration trace (a capture failure, a tracked
face far off-center, and a scan step) keeps the pose within bounds. -/
theorem pose_bounds_invariant_witness :
    poseInv (runTrace (fun _ => 0) TILT_DIR initState
      [none, some ⟨100, [⟨9 / 10, 0, 0, 40, 40⟩], []⟩, some ⟨200, [], []⟩]) :=
  pose_bounds_invariant (fun _ => 0) TILT_DIR initState
    [none, some ⟨100, [⟨9 / 10, 0, 0, 40, 40⟩], []⟩, some ⟨200, [], []⟩]
    (by decide)

/-- C8: A frame-acquisition failure is non-fatal: the iteration retries after
a backoff and every piece of loop state (pan, tilt, scan direction,
last-seen clock, remembered face and its timestamp, last center, last
confidence, tracking mode) is exactly the same after the failed iteration as
before it; no status is published and no actuation command is issued. -/
theorem capture_failure_preserves_state (sinpi : ℚ → ℚ) (tilt_dir : ℚ)
    (s : TurretState) : loopStep sinpi tilt_dir s none = (s, none, []) := rfl

/-- C9: For every input angle, including angles outside `[0, 180]`,
`set_angle` clamps the angle to `[0, 180]` before converting it, so the
computed pulse width always lies in the absolute safety range `[500, 2400]`
microseconds, independently of any clamping done by the caller. -/
theorem set_angle_pulse_bounds (ang : ℚ) :
    500 ≤ set_angle_pulse ang ∧ set_angle_pulse ang ≤ 2400 := by
  unfold set_angle_pulse
  dsimp only
  have h0 : (0 : ℚ) ≤ max 0 (min 180 ang) := le_max_left 0 _
  have h1 : max 0 (min 180 ang) ≤ 180 := max_le (by norm_num) (min_le_left _ _)
  constructor
  · nlinarith
  · nlinarith

/-! ## Face-stage lemmas -/

theorem stepFace_cases (acc : Option Box × ℚ) (d : FaceDet) :
    stepFace acc d = acc ∨ stepFace acc d = (some d.box, d.conf) := by
  unfold stepFace
  split
  · exact Or.inl rfl
  split
  · exact Or.inl rfl
  split
  · exact Or.inr rfl
  · exact Or.inl rfl

theorem foldl_stepFace_of_none (l : List FaceDet) (acc : Option Box × ℚ)
    (h : (List.foldl stepFace acc l).1 = none) :
    List.foldl stepFace acc l = acc := by
  induction l generalizing acc with
  | nil => rfl
  | cons d rest ih =>
    rw [List.foldl_cons] at h ⊢
    have h2 := ih (stepFace acc d) h
    rw [h2] at h ⊢
    rcases stepFace_cases acc d with hc | hc
    · rw [hc]
    · rw [hc] at h
      simp at h

theorem bestFaceOf_of_none (l : List FaceDet)
    (h : (bestFaceOf l).1 = none) : bestFaceOf l = (none, 0) :=
  foldl_stepFace_of_none l (none, 0) h

theorem dispatchTarget_mem (sinpi : ℚ → ℚ) (tilt_dir now : ℚ)
    (s : TurretState) (lft : ℚ) (lfb : Option Box) (mode : String)
    (bc : Option Box × ℚ) :
    (dispatchTarget sinpi tilt_dir now s lft lfb mode bc).state.last_face_box = lfb ∧
    (dispatchTarget sinpi tilt_dir now s lft lfb mode bc).state.last_face_time = lft := by
  rcases bc with ⟨ob, conf⟩
  cases ob with
  | some b => exact ⟨rfl, rfl⟩
  | none =>
    unfold dispatchTarget noTargetBranch
    dsimp only
    split <;> exact ⟨rfl, rfl⟩

theorem runFrame_no_face_mem (sinpi : ℚ → ℚ) (tilt_dir : ℚ) (s : TurretState)
    (fr : Frame)
    (hface : (bestFaceOf fr.faceDets).1 = none) :
    (runFrame sinpi tilt_dir s fr).state.last_face_box = s.last_face_box ∧
    (runFrame sinpi tilt_dir s fr).state.last_face_time = s.last_face_time := by
  have hconf : bestFaceOf fr.faceDets = (none, 0) := bestFaceOf_of_none _ hface
  unfold runFrame
  rw [hconf]
  simp only [Option.isSome_none, Bool.false_eq_true, if_false]
  exact dispatchTarget_mem _ _ _ _ _ _ _ _

theorem runFrame_accept_face (sinpi : ℚ → ℚ) (tilt_dir : ℚ) (s : TurretState)
    (fr : Frame) (B : Box)
    (haccept : (bestFaceOf fr.faceDets).1 = some B) :
    (runFrame sinpi tilt_dir s fr).state.last_face_box = some B ∧
    (runFrame sinpi tilt_dir s fr).state.last_face_time = fr.now ∧
    (runFrame sinpi tilt_dir s fr).state.tracking_mode = "face" := by
  have hconf : bestFaceOf fr.faceDets = (some B, (bestFaceOf fr.faceDets).2) :=
    Prod.ext haccept rfl
  have hne : ¬ (("face" : String) = "none") := by decide
  unfold runFrame
  rw [hconf]
  norm_num [FACE_HOLD_SEC, hne, dispatchTarget, trackBranch]

theorem runFrame_hold_face (sinpi : ℚ → ℚ) (tilt_dir : ℚ) (s : TurretState)
    (fr : Frame) (B : Box)
    (hface : (bestFaceOf fr.faceDets).1 = none)
    (hbox : s.last_face_box = some B)
    (hwin : fr.now - s.last_face_time < FACE_HOLD_SEC) :
    (runFrame sinpi tilt_dir s fr).state.tracking_mode = "face" ∧
    (runFrame sinpi tilt_dir s fr).state.last_face_box = some B ∧
    (runFrame sinpi tilt_dir s fr).state.last_face_time = s.last_face_time ∧
    (runFrame sinpi tilt_dir s fr).state.last_fx = boxCenterX B ∧
    (runFrame sinpi tilt_dir s fr).state.last_fy = boxCenterY B ∧
    (runFrame sinpi tilt_dir s fr).state.last_conf = 0 ∧
    (runFrame sinpi tilt_dir s fr).status = "Tracking" := by
  have hconf : bestFaceOf fr.faceDets = (none, 0) := bestFaceOf_of_none _ hface
  have hne : ¬ (("face" : String) = "none") := by decide
  unfold runFrame
  rw [hconf, hbox]
  simp [hwin, hne, dispatchTarget, trackBranch]

theorem runFrames_no_face_mem (sinpi : ℚ → ℚ) (tilt_dir : ℚ) (s : TurretState)
    (l : List Frame)
    (hnone : ∀ f ∈ l, (bestFaceOf f.faceDets).1 = none) :
    (runFrames sinpi tilt_dir s l).last_face_box = s.last_face_box ∧
    (runFrames sinpi tilt_dir s l).last_face_time = s.last_face_time := by
  induction l generalizing s with
  | nil => exact ⟨rfl, rfl⟩
  | cons f rest ih =>
    have hf := runFrame_no_face_mem sinpi tilt_dir s f (hnone f (by simp))
    have hr := ih (runFrame sinpi tilt_dir s f).state
      (fun g hg => hnone g (by simp [hg]))
    unfold runFrames
    rw [hr.1, hr.2, hf.1, hf.2]
    exact ⟨rfl, rfl⟩

theorem runFrames_append (sinpi : ℚ → ℚ) (tilt_dir : ℚ) (s : TurretState)
    (l1 l2 : List Frame) :
    runFrames sinpi tilt_dir s (l1 ++ l2) =
      runFrames sinpi tilt_dir (runFrames sinpi tilt_dir s l1) l2 := by
  induction l1 generalizing s with
  | nil => rfl
  | cons f rest ih =>
    simp only [List.cons_append, runFrames]
    exact ih _

/-- C2: If a face detection with box `B` is accepted at time `T = f0.now`,
then for every subsequent frame (the `i`-th of a following run of frames on
which the face detector produces no accepted candidate) processed at a time
`t` with `t - T < FACE_HOLD_SEC`, the system reports mode `"face"` and uses
the same remembered box `B` — hence the same center — as the current
target. -/
theorem face_hold_same_box (sinpi : ℚ → ℚ) (tilt_dir : ℚ) (s0 : TurretState)
    (f0 : Frame) (B : Box) (fs : List Frame)
    (haccept : (bestFaceOf f0.faceDets).1 = some B)
    (hnone : ∀ f ∈ fs, (bestFaceOf f.faceDets).1 = none)
    (i : ℕ) (hi : i < fs.length)
    (hwin : (fs.get ⟨i, hi⟩).now - f0.now < FACE_HOLD_SEC) :
    (runFrames sinpi tilt_dir s0 (f0 :: fs.take (i + 1))).tracking_mode = "face" ∧
    (runFrames sinpi tilt_dir s0 (f0 :: fs.take (i + 1))).last_face_box = some B ∧
    (runFrames sinpi tilt_dir s0 (f0 :: fs.take (i + 1))).last_fx = boxCenterX B ∧
    (runFrames sinpi tilt_dir s0 (f0 :: fs.take (i + 1))).last_fy = boxCenterY B := by
  have hacc := runFrame_accept_face sinpi tilt_dir s0 f0 B haccept
  have htake_mem : ∀ f ∈ fs.take i, (bestFaceOf f.faceDets).1 = none :=
    fun f hf => hnone f (List.take_subset i fs hf)
  have hmem := runFrames_no_face_mem sinpi tilt_dir
    (runFrame sinpi tilt_dir s0 f0).state (fs.take i) htake_mem
  have hsplit : fs.take (i + 1) = fs.take i ++ [fs.get ⟨i, hi⟩] := by
    rw [List.take_succ, List.getElem?_eq_getElem hi]
    simp
  have hrun : runFrames sinpi tilt_dir s0 (f0 :: fs.take (i + 1)) =
      (runFrame sinpi tilt_dir
        (runFrames sinpi tilt_dir (runFrame sinpi tilt_dir s0 f0).state (fs.take i))
        (fs.get ⟨i, hi⟩)).state := by
    rw [hsplit]
    simp only [runFrames, runFrames_append]
  have hhold := runFrame_hold_face sinpi tilt_dir
    (runFrames sinpi tilt_dir (runFrame sinpi tilt_dir s0 f0).state (fs.take i))
    (fs.get ⟨i, hi⟩) B
    (hnone _ (List.get_mem fs i hi))
    (by rw [hmem.1, hacc.1])
    (by rw [hmem.2, hacc.2.1]; exact hwin)
  rw [hrun]
  exact ⟨hhold.1, hhold.2.1, hhold.2.2.2.1, hhold.2.2.2.2.1⟩

/-- Witness for C2: a face with box `(150, 110, 170, 130)` accepted at
`t = 100` is still the reported target, with mode `"face"`, on a
candidate-free frame processed at `t = 100.05`, inside the 0.1 s window. -/
theorem face_hold_same_box_witness :
    (runFrames (fun _ => 0) TILT_DIR initState
        [⟨100, [⟨9 / 10, 150, 110, 170, 130⟩], []⟩,
         ⟨100 + 5 / 100, [], []⟩]).tracking_mode = "face" ∧
    (runFrames (fun _ => 0) TILT_DIR initState
        [⟨100, [⟨9 / 10, 150, 110, 170, 130⟩], []⟩,
         ⟨100 + 5 / 100, [], []⟩]).last_face_box = some (150, 110, 170, 130) ∧
    (runFrames (fun _ => 0) TILT_DIR initState
        [⟨100, [⟨9 / 10, 150, 110, 170, 130⟩], []⟩,
         ⟨100 + 5 / 100, [], []⟩]).last_fx = boxCenterX (150, 110, 170, 130) ∧
    (runFrames (fun _ => 0) TILT_DIR initState
        [⟨100, [⟨9 / 10, 150, 110, 170, 130⟩], []⟩,
         ⟨100 + 5 / 100, [], []⟩]).last_fy = boxCenterY (150, 110, 170, 130) :=
  face_hold_same_box (fun _ => 0) TILT_DIR initState
    ⟨100, [⟨9 / 10, 150, 110, 170, 130⟩], []⟩ (150, 110, 170, 130)
    [⟨100 + 5 / 100, [], []⟩]
    (by norm_num [bestFaceOf, stepFace, FACE_CONF, MIN_FACE_PIX, FaceDet.area,
      FaceDet.box])
    (by intro f hf
        simp only [List.mem_singleton] at hf
        subst hf
        rfl)
    0 (by norm_num)
    (by norm_num [FACE_HOLD_SEC])

/-- C4 (amended): during the face-hold window with no accepted face
candidate in the current frame, the reported mode is `"face"` but the
reported confidence is the current frame's best face confidence — which is
`0.0` — not the confidence the remembered detection had when it was
originally accepted (the source never stores that confidence). -/
theorem face_hold_conf_zero (sinpi : ℚ → ℚ) (tilt_dir : ℚ) (s : TurretState)
    (fr : Frame) (B : Box)
    (hface : (bestFaceOf fr.faceDets).1 = none)
    (hbox : s.last_face_box = some B)
    (hwin : fr.now - s.last_face_time < FACE_HOLD_SEC) :
    (runFrame sinpi tilt_dir s fr).state.tracking_mode = "face" ∧
    (runFrame sinpi tilt_dir s fr).state.last_conf = 0 := by
  have h := runFrame_hold_face sinpi tilt_dir s fr B hface hbox hwin
  exact ⟨h.1, h.2.2.2.2.2.1⟩

/-- Witness for C4 (amended): concrete hold frame with a remembered face and
no fresh candidate reports mode `"face"` and confidence `0`. -/
theorem face_hold_conf_zero_witness :
    (runFrame (fun _ => 0) TILT_DIR
        { initState with last_face_box := some (150, 110, 170, 130),
                         last_face_time := 100 }
        ⟨100 + 5 / 100, [], []⟩).state.tracking_mode = "face" ∧
    (runFrame (fun _ => 0) TILT_DIR
        { initState with last_face_box := some (150, 110, 170, 130),
                         last_face_time := 100 }
        ⟨100 + 5 / 100, [], []⟩).state.last_conf = 0 :=
  face_hold_conf_zero (fun _ => 0) TILT_DIR
    { initState with last_face_box := some (150, 110, 170, 130),
                     last_face_time := 100 }
    ⟨100 + 5 / 100, [], []⟩ (150, 110, 170, 130)
    rfl rfl (by norm_num [FACE_HOLD_SEC])

/-- Counterexample for C4 as stated: a face accepted at `t = 100` with
confidence `0.9` sets the reported confidence to `0.9`, but the very next
frame at `t = 100.05` — inside the hold window, with no accepted candidate —
still reports mode `"face"` while the reported confidence drops to `0`,
not the original `0.9`. -/
theorem face_hold_conf_counterexample :
    (runFrames (fun _ => 0) TILT_DIR initState
        [⟨100, [⟨9 / 10, 150, 110, 170, 130⟩], []⟩]).last_conf = 9 / 10 ∧
    (runFrames (fun _ => 0) TILT_DIR initState
        [⟨100, [⟨9 / 10, 150, 110, 170, 130⟩], []⟩,
         ⟨100 + 5 / 100, [], []⟩]).tracking_mode = "face" ∧
    (runFrames (fun _ => 0) TILT_DIR initState
        [⟨100, [⟨9 / 10, 150, 110, 170, 130⟩], []⟩,
         ⟨100 + 5 / 100, [], []⟩]).last_conf = 0 := by
  have hne : ¬ (("face" : String) = "none") := by decide
  norm_num [runFrames, runFrame, bestFaceOf, stepFace, FaceDet.area, FaceDet.box,
    FACE_CONF, MIN_FACE_PIX, FACE_HOLD_SEC, bestBodyFrom, dispatchTarget,
    trackBranch, noTargetBranch, initState, hne]

/-! ## Routing lemmas -/

theorem runFrame_route_face (sinpi : ℚ → ℚ) (tilt_dir : ℚ) (s : TurretState)
    (fr : Frame) (B : Box)
    (haccept : (bestFaceOf fr.faceDets).1 = some B) :
    runFrame sinpi tilt_dir s fr =
      trackBranch tilt_dir fr.now s fr.now (some B) "face"
        B (bestFaceOf fr.faceDets).2 := by
  have hconf : bestFaceOf fr.faceDets = (some B, (bestFaceOf fr.faceDets).2) :=
    Prod.ext haccept rfl
  have hne : ¬ (("face" : String) = "none") := by decide
  unfold runFrame
  rw [hconf]
  norm_num [FACE_HOLD_SEC, hne, dispatchTarget]

theorem runFrame_route_none (sinpi : ℚ → ℚ) (tilt_dir : ℚ) (s : TurretState)
    (fr : Frame)
    (hface : (bestFaceOf fr.faceDets).1 = none)
    (hhold : ¬ (fr.now - s.last_face_time < FACE_HOLD_SEC ∧
      s.last_face_box.isSome = true))
    (hbody : (bestBodyFrom (none, 0) fr.bodyDets).1 = none) :
    runFrame sinpi tilt_dir s fr =
      noTargetBranch sinpi fr.now s s.last_face_time s.last_face_box "none" := by
  have hconf : bestFaceOf fr.faceDets = (none, 0) := bestFaceOf_of_none _ hface
  have hb2 : bestBodyFrom (none, 0) fr.bodyDets =
      (none, (bestBodyFrom (none, 0) fr.bodyDets).2) := Prod.ext hbody rfl
  have hu : (decide (fr.now - s.last_face_time < FACE_HOLD_SEC) &&
      s.last_face_box.isSome) = false := by
    rcases not_and_or.mp hhold with h | h
    · simp [h]
    · simp only [Bool.not_eq_true] at h
      simp [h]
  unfold runFrame
  rw [hconf]
  simp only [Option.isSome_none, Bool.false_eq_true, if_false, hu]
  rw [hb2]
  simp [dispatchTarget]

theorem scanUpdate_at_max (sinpi : ℚ → ℚ) (tilt : ℚ) :
    (scanUpdate sinpi PAN_MAX tilt 1).1 = PAN_MAX ∧
    (scanUpdate sinpi PAN_MAX tilt 1).2.2 = -1 := by
  unfold scanUpdate
  norm_num [PAN_MAX, PAN_MIN, SCAN_STEP]

/-- C3 (amended): in scanning mode, a single scan step started at
`pan = PAN_MAX` with `scan_dir = +1` flips `scan_dir` to `-1` but leaves
`pan` equal to `PAN_MAX` (the reversed step returns pan to its starting
value; `PAN_MAX - SCAN_STEP` is only reached on the following step). -/
theorem scan_bounce_flips_dir_keeps_pan (sinpi : ℚ → ℚ) (tilt_dir : ℚ)
    (s : TurretState) (fr : Frame)
    (hface : (bestFaceOf fr.faceDets).1 = none)
    (hhold : ¬ (fr.now - s.last_face_time < FACE_HOLD_SEC ∧
      s.last_face_box.isSome = true))
    (hbody : (bestBodyFrom (none, 0) fr.bodyDets).1 = none)
    (htime : fr.now - s.last_seen > LOST_TIMEOUT)
    (hpan : s.pan = PAN_MAX) (hdir : s.scan_dir = 1) :
    (runFrame sinpi tilt_dir s fr).state.scan_dir = -1 ∧
    (runFrame sinpi tilt_dir s fr).state.pan = PAN_MAX ∧
    (runFrame sinpi tilt_dir s fr).status = "Scanning" := by
  rw [runFrame_route_none sinpi tilt_dir s fr hface hhold hbody]
  unfold noTargetBranch
  rw [if_pos htime, if_neg (by linarith : ¬ (fr.now - s.last_seen < LOST_TIMEOUT))]
  dsimp only
  rw [hpan, hdir]
  have h := scanUpdate_at_max sinpi s.tilt
  exact ⟨h.2, h.1, rfl⟩

/-- Witness for C3 (amended): the concrete scan step from
`pan = PAN_MAX, scan_dir = +1` on a detection-free frame past the lost
timeout. -/
theorem scan_bounce_flips_dir_keeps_pan_witness :
    (runFrame (fun _ => 0) TILT_DIR { initState with pan := PAN_MAX }
        ⟨10, [], []⟩).state.scan_dir = -1 ∧
    (runFrame (fun _ => 0) TILT_DIR { initState with pan := PAN_MAX }
        ⟨10, [], []⟩).state.pan = PAN_MAX ∧
    (runFrame (fun _ => 0) TILT_DIR { initState with pan := PAN_MAX }
        ⟨10, [], []⟩).status = "Scanning" :=
  scan_bounce_flips_dir_keeps_pan (fun _ => 0) TILT_DIR
    { initState with pan := PAN_MAX } ⟨10, [], []⟩
    rfl (by norm_num [initState, FACE_HOLD_SEC]) rfl
    (by norm_num [initState, LOST_TIMEOUT]) rfl rfl

/-- Counterexample for C3 as stated: the concrete scan step from
`pan = PAN_MAX, scan_dir = +1` flips the direction but produces
`pan = PAN_MAX`, not `PAN_MAX - SCAN_STEP`. -/
theorem scan_bounce_pan_counterexample :
    (runFrame (fun _ => 0) TILT_DIR { initState with pan := PAN_MAX }
        ⟨10, [], []⟩).state.scan_dir = -1 ∧
    (runFrame (fun _ => 0) TILT_DIR { initState with pan := PAN_MAX }
        ⟨10, [], []⟩).state.pan = PAN_MAX ∧
    ¬ ((runFrame (fun _ => 0) TILT_DIR { initState with pan := PAN_MAX }
        ⟨10, [], []⟩).state.pan = PAN_MAX - SCAN_STEP) := by
  rw [runFrame_route_none (fun _ => 0) TILT_DIR
    { initState with pan := PAN_MAX } ⟨10, [], []⟩
    rfl (by norm_num [initState, FACE_HOLD_SEC]) rfl]
  unfold noTargetBranch
  norm_num [initState, LOST_TIMEOUT, scanUpdate, PAN_MAX, PAN_MIN, SCAN_STEP]

/-- C10: in a frame with no accepted target whose elapsed time since
`last_seen` equals `LOST_TIMEOUT` exactly, no scan step is taken and no
`set_angle` call is issued (pan, tilt and scan direction are unchanged),
yet the published status text is `"Scanning"` rather than
`"Target lost (hold)"`: the hold branch requires `elapsed < LOST_TIMEOUT`
strictly while the scan branch requires `elapsed > LOST_TIMEOUT` strictly. -/
theorem boundary_elapsed_scanning_status (sinpi : ℚ → ℚ) (tilt_dir : ℚ)
    (s : TurretState) (fr : Frame)
    (hface : (bestFaceOf fr.faceDets).1 = none)
    (hhold : ¬ (fr.now - s.last_face_time < FACE_HOLD_SEC ∧
      s.last_face_box.isSome = true))
    (hbody : (bestBodyFrom (none, 0) fr.bodyDets).1 = none)
    (helap : fr.now - s.last_seen = LOST_TIMEOUT) :
    (runFrame sinpi tilt_dir s fr).status = "Scanning" ∧
    (runFrame sinpi tilt_dir s fr).cmds = [] ∧
    (runFrame sinpi tilt_dir s fr).state.pan = s.pan ∧
    (runFrame sinpi tilt_dir s fr).state.tilt = s.tilt ∧
    (runFrame sinpi tilt_dir s fr).state.scan_dir = s.scan_dir := by
  rw [runFrame_route_none sinpi tilt_dir s fr hface hhold hbody]
  unfold noTargetBranch
  rw [helap]
  norm_num

/-- Witness for C10: a detection-free frame at `t = 12` with
`last_seen = 10`, so the elapsed time is exactly `LOST_TIMEOUT = 2`. -/
theorem boundary_elapsed_scanning_status_witness :
    (runFrame (fun _ => 0) TILT_DIR { initState with last_seen := 10 }
        ⟨12, [], []⟩).status = "Scanning" ∧
    (runFrame (fun _ => 0) TILT_DIR { initState with last_seen := 10 }
        ⟨12, [], []⟩).cmds = [] ∧
    (runFrame (fun _ => 0) TILT_DIR { initState with last_seen := 10 }
        ⟨12, [], []⟩).state.pan = ({ initState with last_seen := 10 } : TurretState).pan ∧
    (runFrame (fun _ => 0) TILT_DIR { initState with last_seen := 10 }
        ⟨12, [], []⟩).state.tilt = ({ initState with last_seen := 10 } : TurretState).tilt ∧
    (runFrame (fun _ => 0) TILT_DIR { initState with last_seen := 10 }
        ⟨12, [], []⟩).state.scan_dir = ({ initState with last_seen := 10 } : TurretState).scan_dir :=
  boundary_elapsed_scanning_status (fun _ => 0) TILT_DIR
    { initState with last_seen := 10 } ⟨12, [], []⟩
    rfl (by norm_num [initState, FACE_HOLD_SEC]) rfl
    (by norm_num [initState, LOST_TIMEOUT])

/-- C5 (amended): for a frame whose accepted face detection has center
`(160, 120)` against frame center `(CX, CY) = (150, 112)`, with
`tilt_direction = +1`, the iteration strictly decreases pan (given
`pan > PAN_MIN`, e.g. from the center pose) but leaves tilt unchanged:
`|err_y| = 8` equals `CENTER_TOL_Y = 8` and the tilt update requires
strict exceedance, so only the pan error is outside its dead-zone. -/
theorem scenario1_pan_decreases_tilt_unchanged (sinpi : ℚ → ℚ)
    (s : TurretState) (fr : Frame) (B : Box)
    (haccept : (bestFaceOf fr.faceDets).1 = some B)
    (hcx : boxCenterX B = 160) (hcy : boxCenterY B = 120)
    (hpan : PAN_MIN < s.pan) :
    (runFrame sinpi 1 s fr).state.pan < s.pan ∧
    (runFrame sinpi 1 s fr).state.tilt = s.tilt := by
  rw [runFrame_route_face sinpi 1 s fr B haccept]
  unfold trackBranch
  dsimp only
  rw [hcx, hcy]
  constructor
  · unfold panUpdate
    rw [if_pos (by decide : |(160 : ℤ) - CX| > CENTER_TOL_X)]
    dsimp only
    unfold clampQ
    refine max_lt ?_ (lt_of_le_of_lt (min_le_right _ _) ?_)
    · exact hpan
    · have : (((160 : ℤ) - CX : ℤ) : ℚ) * GAIN_PAN = 1 / 2 := by
        norm_num [CX, CAM_W, GAIN_PAN]
      rw [this]
      linarith
  · unfold tiltUpdate
    rw [if_neg (by decide : ¬ (|(120 : ℤ) - CY| > CENTER_TOL_Y))]

/-- Witness for C5 (amended): a face with box `(150, 110, 170, 130)`
(center `(160, 120)`, confidence `0.9`) tracked from the center pose with
`tilt_direction = +1`. -/
theorem scenario1_witness :
    (runFrame (fun _ => 0) 1 initState
        ⟨100, [⟨9 / 10, 150, 110, 170, 130⟩], []⟩).state.pan < initState.pan ∧
    (runFrame (fun _ => 0) 1 initState
        ⟨100, [⟨9 / 10, 150, 110, 170, 130⟩], []⟩).state.tilt = initState.tilt :=
  scenario1_pan_decreases_tilt_unchanged (fun _ => 0) initState
    ⟨100, [⟨9 / 10, 150, 110, 170, 130⟩], []⟩ (150, 110, 170, 130)
    (by norm_num [bestFaceOf, stepFace, FACE_CONF, MIN_FACE_PIX, FaceDet.area,
      FaceDet.box])
    rfl rfl (by norm_num [initState, PAN_MIN, PAN_CENTER])

/-- Counterexample for C5 as stated: on the scenario's concrete input —
face center `(160, 120)`, frame center `(150, 112)`, `tilt_direction = +1` —
tilt does not strictly increase: it is exactly unchanged, because
`|120 - 112| = 8` is not strictly greater than `CENTER_TOL_Y = 8`. -/
theorem scenario1_tilt_counterexample :
    (runFrame (fun _ => 0) 1 initState
        ⟨100, [⟨9 / 10, 150, 110, 170, 130⟩], []⟩).state.tilt = initState.tilt ∧
    ¬ (initState.tilt <
        (runFrame (fun _ => 0) 1 initState
          ⟨100, [⟨9 / 10, 150, 110, 170, 130⟩], []⟩).state.tilt) := by
  rw [runFrame_route_face (fun _ => 0) 1 initState
    ⟨100, [⟨9 / 10, 150, 110, 170, 130⟩], []⟩ (150, 110, 170, 130)
    (by norm_num [bestFaceOf, stepFace, FACE_CONF, MIN_FACE_PIX, FaceDet.area,
      FaceDet.box])]
  unfold trackBranch
  dsimp only
  unfold tiltUpdate
  rw [if_neg (by decide : ¬ (|boxCenterY (150, 110, 170, 130) - CY| > CENTER_TOL_Y))]
  exact ⟨rfl, lt_irrefl _⟩

theorem dispatchTarget_dead_zone (sinpi : ℚ → ℚ) (tilt_dir now : ℚ)
    (s : TurretState) (lft : ℚ) (lfb : Option Box) (mode : String)
    (bc : Option Box × ℚ)
    (h : (dispatchTarget sinpi tilt_dir now s lft lfb mode bc).status = "Tracking") :
    (|(dispatchTarget sinpi tilt_dir now s lft lfb mode bc).state.last_fx - CX| ≤ CENTER_TOL_X →
      (dispatchTarget sinpi tilt_dir now s lft lfb mode bc).state.pan = s.pan) ∧
    (|(dispatchTarget sinpi tilt_dir now s lft lfb mode bc).state.last_fy - CY| ≤ CENTER_TOL_Y →
      (dispatchTarget sinpi tilt_dir now s lft lfb mode bc).state.tilt = s.tilt) := by
  rcases bc with ⟨ob, conf⟩
  cases ob with
  | none =>
    exfalso
    unfold dispatchTarget noTargetBranch at h
    dsimp only at h
    split at h <;> dsimp only at h <;> split at h <;> exact absurd h (by decide)
  | some b =>
    unfold dispatchTarget trackBranch
    dsimp only
    constructor
    · intro hx
      unfold panUpdate
      rw [if_neg (not_lt.mpr hx)]
    · intro hy
      unfold tiltUpdate
      rw [if_neg (not_lt.mpr hy)]

/-- C6: for every frame with an accepted target (status `"Tracking"`), if
the target center's horizontal error from frame center is within
`CENTER_TOL_X` then pan is unchanged by that frame, and symmetrically if
the vertical error is within `CENTER_TOL_Y` then tilt is unchanged. -/
theorem dead_zone_idempotence (sinpi : ℚ → ℚ) (tilt_dir : ℚ)
    (s : TurretState) (fr : Frame)
    (htrack : (runFrame sinpi tilt_dir s fr).status = "Tracking") :
    (|(runFrame sinpi tilt_dir s fr).state.last_fx - CX| ≤ CENTER_TOL_X →
      (runFrame sinpi tilt_dir s fr).state.pan = s.pan) ∧
    (|(runFrame sinpi tilt_dir s fr).state.last_fy - CY| ≤ CENTER_TOL_Y →
      (runFrame sinpi tilt_dir s fr).state.tilt = s.tilt) := by
  unfold runFrame at htrack ⊢
  exact dispatchTarget_dead_zone sinpi tilt_dir fr.now s _ _ _ _ htrack

/-- Witness for C6: a face accepted exactly at frame center `(150, 112)`
leaves both pan and tilt unchanged. -/
theorem dead_zone_idempotence_witness :
    (runFrame (fun _ => 0) TILT_DIR initState
        ⟨100, [⟨9 / 10, 140, 102, 160, 122⟩], []⟩).state.pan = initState.pan ∧
    (runFrame (fun _ => 0) TILT_DIR initState
        ⟨100, [⟨9 / 10, 140, 102, 160, 122⟩], []⟩).state.tilt = initState.tilt :=
  have hroute := runFrame_route_face (fun _ => 0) TILT_DIR initState
    ⟨100, [⟨9 / 10, 140, 102, 160, 122⟩], []⟩ (140, 102, 160, 122)
    (by norm_num [bestFaceOf, stepFace, FACE_CONF, MIN_FACE_PIX, FaceDet.area,
      FaceDet.box])
  have h := dead_zone_idempotence (fun _ => 0) TILT_DIR initState
    ⟨100, [⟨9 / 10, 140, 102, 160, 122⟩], []⟩ (by rw [hroute]; rfl)
  ⟨h.1 (by rw [hroute]; decide), h.2 (by rw [hroute]; decide)⟩

/-! ## Body-stage lemmas -/

theorem stepBody_cases (acc : Option Box × ℚ) (d : BodyDet) :
    stepBody acc d = acc ∨
      (stepBody acc d = (some d.box, d.conf) ∧ bodyQualifies d) := by
  unfold stepBody
  split
  · exact Or.inl rfl
  · rename_i h1
    push_neg at h1
    split
    · exact Or.inl rfl
    · rename_i h2
      push_neg at h2
      split
      · exact Or.inr ⟨rfl, h1.2, h1.1, h2⟩
      · exact Or.inl rfl

theorem stepBody_conf_le (acc : Option Box × ℚ) (d : BodyDet) :
    acc.2 ≤ (stepBody acc d).2 := by
  unfold stepBody
  split
  · exact le_refl _
  split
  · exact le_refl _
  split
  · rename_i h
    exact le_of_lt h
  · exact le_refl _

theorem stepBody_qual_le (acc : Option Box × ℚ) (d : BodyDet)
    (hq : bodyQualifies d) : d.conf ≤ (stepBody acc d).2 := by
  obtain ⟨hcls, hconf, harea⟩ := hq
  unfold stepBody
  rw [if_neg (not_or.mpr ⟨not_lt.mpr hconf, by simp [hcls]⟩),
    if_neg (not_lt.mpr harea)]
  split
  · exact le_refl _
  · rename_i h
    exact not_lt.mp h

theorem foldl_stepBody_conf_le (l : List BodyDet) (acc : Option Box × ℚ) :
    acc.2 ≤ (List.foldl stepBody acc l).2 := by
  induction l generalizing acc with
  | nil => exact le_refl _
  | cons d rest ih =>
    rw [List.foldl_cons]
    exact le_trans (stepBody_conf_le acc d) (ih _)

theorem foldl_stepBody_qual_le (l : List BodyDet) (acc : Option Box × ℚ)
    (d : BodyDet) (hd : d ∈ l) (hq : bodyQualifies d) :
    d.conf ≤ (List.foldl stepBody acc l).2 := by
  induction l generalizing acc with
  | nil => cases hd
  | cons e rest ih =>
    rw [List.foldl_cons]
    rcases List.mem_cons.mp hd with heq | hd2
    · subst heq
      exact le_trans (stepBody_qual_le acc d hq) (foldl_stepBody_conf_le rest _)
    · exact ih _ hd2

theorem foldl_stepBody_origin (l : List BodyDet) (acc : Option Box × ℚ) :
    List.foldl stepBody acc l = acc ∨
      ∃ d ∈ l, bodyQualifies d ∧
        List.foldl stepBody acc l = (some d.box, d.conf) := by
  induction l generalizing acc with
  | nil => exact Or.inl rfl
  | cons e rest ih =>
    rw [List.foldl_cons]
    rcases ih (stepBody acc e) with h0 | ⟨d, hd, hq, heq⟩
    · rw [h0]
      rcases stepBody_cases acc e with hc | ⟨hc, hq⟩
      · exact Or.inl hc
      · exact Or.inr ⟨e, List.mem_cons_self e rest, hq, hc⟩
    · exact Or.inr ⟨d, List.mem_cons_of_mem e hd, hq, heq⟩

theorem bestBodyFrom_some (l : List BodyDet) (b : Box)
    (h : (bestBodyFrom (none, 0) l).1 = some b) :
    ∃ d ∈ l, bodyQualifies d ∧ b = d.box ∧
      (bestBodyFrom (none, 0) l).2 = d.conf ∧
      ∀ d2 ∈ l, bodyQualifies d2 → d2.conf ≤ d.conf := by
  rcases foldl_stepBody_origin l (none, 0) with h0 | ⟨d, hd, hq, heq⟩
  · unfold bestBodyFrom at h
    rw [h0] at h
    cases h
  · unfold bestBodyFrom at h ⊢
    rw [heq] at h ⊢
    refine ⟨d, hd, hq, ?_, rfl, ?_⟩
    · exact (Option.some_inj.mp h).symm
    · intro d2 hd2 hq2
      have hle := foldl_stepBody_qual_le l (none, 0) d2 hd2 hq2
      rw [heq] at hle
      exact hle

theorem runFrame_route_body (sinpi : ℚ → ℚ) (tilt_dir : ℚ) (s : TurretState)
    (fr : Frame) (b : Box)
    (hface : (bestFaceOf fr.faceDets).1 = none)
    (hhold : ¬ (fr.now - s.last_face_time < FACE_HOLD_SEC ∧
      s.last_face_box.isSome = true))
    (hsel : (bestBodyFrom (none, 0) fr.bodyDets).1 = some b) :
    runFrame sinpi tilt_dir s fr =
      trackBranch tilt_dir fr.now s s.last_face_time s.last_face_box "body"
        b (bestBodyFrom (none, 0) fr.bodyDets).2 := by
  have hconf : bestFaceOf fr.faceDets = (none, 0) := bestFaceOf_of_none _ hface
  have hb2 : bestBodyFrom (none, 0) fr.bodyDets =
      (some b, (bestBodyFrom (none, 0) fr.bodyDets).2) := Prod.ext hsel rfl
  have hu : (decide (fr.now - s.last_face_time < FACE_HOLD_SEC) &&
      s.last_face_box.isSome) = false := by
    rcases not_and_or.mp hhold with h | h
    · simp [h]
    · simp only [Bool.not_eq_true] at h
      simp [h]
  unfold runFrame
  rw [hconf]
  simp only [Option.isSome_none, Bool.false_eq_true, if_false, hu]
  rw [hb2]
  simp [dispatchTarget]

/-- C7: when the face-hold window is inactive and the body stage selects a
box `b`, the reported mode is `"body"`, the target center is `b`'s center,
and `b` comes from a body-detector output that passes all three filters
(person class, confidence threshold, minimum area fraction) with the
highest confidence among all passing outputs — so no detection failing a
filter is ever selected.  The scenario with face confidence `0.3` and a
qualifying body detection of confidence `0.9` (see the witness) resolves to
mode `"body"`. -/
theorem body_selection_correct (sinpi : ℚ → ℚ) (tilt_dir : ℚ)
    (s : TurretState) (fr : Frame) (b : Box)
    (hface : (bestFaceOf fr.faceDets).1 = none)
    (hhold : ¬ (fr.now - s.last_face_time < FACE_HOLD_SEC ∧
      s.last_face_box.isSome = true))
    (hsel : (bestBodyFrom (none, 0) fr.bodyDets).1 = some b) :
    (runFrame sinpi tilt_dir s fr).state.tracking_mode = "body" ∧
    (runFrame sinpi tilt_dir s fr).state.last_fx = boxCenterX b ∧
    (runFrame sinpi tilt_dir s fr).state.last_fy = boxCenterY b ∧
    ∃ d ∈ fr.bodyDets, bodyQualifies d ∧ b = d.box ∧
      (runFrame sinpi tilt_dir s fr).state.last_conf = d.conf ∧
      ∀ d2 ∈ fr.bodyDets, bodyQualifies d2 → d2.conf ≤ d.conf := by
  rw [runFrame_route_body sinpi tilt_dir s fr b hface hhold hsel]
  obtain ⟨d, hd, hq, hb, hc, hmax⟩ := bestBodyFrom_some fr.bodyDets b hsel
  exact ⟨rfl, rfl, rfl, d, hd, hq, hb, hc, hmax⟩

/-- Witness for C7 (end-to-end scenario 3): face confidence `0.3` (below
the `0.5` threshold) and a qualifying body detection of confidence `0.9`
resolve to mode `"body"`. -/
theorem body_selection_correct_witness :
    (runFrame (fun _ => 0) TILT_DIR initState
        ⟨100, [⟨3 / 10, 150, 110, 170, 130⟩],
          [⟨9 / 10, 15, 100, 50, 200, 180⟩]⟩).state.tracking_mode = "body" :=
  (body_selection_correct (fun _ => 0) TILT_DIR initState
    ⟨100, [⟨3 / 10, 150, 110, 170, 130⟩], [⟨9 / 10, 15, 100, 50, 200, 180⟩]⟩
    (100, 50, 200, 180)
    (by norm_num [bestFaceOf, stepFace, FACE_CONF])
    (by norm_num [initState])
    (by norm_num [bestBodyFrom, stepBody, PERSON_CONF, PERSON_CLASS,
      MIN_BODY_FRAC, CAM_W, CAM_H, BodyDet.area, BodyDet.box])).1

end AutoTurret
